import Mathlib

/-!
Verification of the bplustreedb storage engine core: a shallow embedding of
the meta-page protocol, page layer, freelist and initialisation logic,
together with theorems settling the specified properties.

Machine integers (u32, u64) are embedded as `Nat`; the source never relies
on wrap-around in the embedded fragment, so no modular reduction is needed.
Rust panics (`panic!`, `assert_eq!`) are embedded as `Except`/`Option`
error outcomes.
-/

namespace BPlus

/-- `BucketMeta` from bucket.rs: root page id of a B+tree plus the
auto-increment counter. -/
structure BucketMeta where
  root_page : Nat
  next_int : Nat
deriving DecidableEq, Repr

/-- `Meta` from meta.rs: the database root descriptor.  `hash` is the
stored 256-bit content hash; here a byte list (see `Meta.hash_self`). -/
structure Meta where
  meta_page : Nat
  magic : Nat
  version : Nat
  pagesize : Nat
  root : BucketMeta
  num_pages : Nat
  freelist_page : Nat
  tx_id : Nat
  hash : List Nat
deriving DecidableEq, Repr

/-- Little-endian byte encoding of a u32 field. -/
def u32le (n : Nat) : List Nat :=
  [n % 256, n / 256 % 256, n / 65536 % 256, n / 16777216 % 256]

/-- Little-endian byte encoding of a u64 field. -/
def u64le (n : Nat) : List Nat :=
  [n % 256, n / 256 % 256, n / 65536 % 256, n / 16777216 % 256,
   n / 4294967296 % 256, n / 1099511627776 % 256,
   n / 281474976710656 % 256, n / 72057594037927936 % 256]

/-- Modelled from the spec: `Meta::bytes` lives in the repository's missing
`bytes` module; the spec (section 6) fixes the binary layout of a meta page as
meta-page-index (4 bytes), magic (4), version (4), pagesize (8), root bucket
descriptor (8 + 8), total page count (8), freelist page id (8), transaction
id (8), followed by the hash.  This encodes all fields preceding the hash. -/
def metaBytes (m : Meta) : List Nat :=
  u32le m.meta_page ++ u32le m.magic ++ u32le m.version ++ u64le m.pagesize ++
  u64le m.root.root_page ++ u64le m.root.next_int ++ u64le m.num_pages ++
  u64le m.freelist_page ++ u64le m.tx_id

/-- Modelled from the spec: `hash_self` in meta.rs computes a SHA3-256
digest of `self.bytes()`, but the SHA3 dependency and the `bytes` module are
not in src/.  The spec's invariant is `hash == hash(all other fields)`; the
digest is idealised as a collision-free function of the encoded field bytes,
taken to be those bytes themselves. -/
def Meta.hash_self (m : Meta) : List Nat := metaBytes m

/-- `Meta::valid` from meta.rs: the stored hash must equal the recomputed
hash of all other fields. -/
def Meta.valid (m : Meta) : Bool := m.hash == m.hash_self

/-- `MAGIC_VALUE` from db.rs. -/
def MAGIC_VALUE : Nat := 0x00ABCDEF

/-- `VERSION` from db.rs. -/
def VERSION : Nat := 1

/-- Failure outcomes of `DBInner::meta` in db.rs: the `assert_eq!` pagesize
panics and the `panic!("NO VALID META PAGES")`. -/
inductive DbError where
  | pagesizeMismatchMeta1
  | pagesizeMismatchMeta2
  | noValidMetaPages
deriving DecidableEq, Repr

/-- `DBInner::meta` from db.rs, lines 191-243: reads the two meta slots,
checks pagesize of meta1 early when it is valid, then selects the
authoritative meta by (validity, transaction id). -/
def dbMeta (pagesize : Nat) (meta1 meta2 : Meta) : Except DbError Meta :=
  if meta1.valid ∧ meta1.pagesize ≠ pagesize then
    .error .pagesizeMismatchMeta1
  else
    match meta1.valid, meta2.valid with
    | true, true =>
      if meta1.pagesize ≠ pagesize then .error .pagesizeMismatchMeta1
      else if meta2.pagesize ≠ pagesize then .error .pagesizeMismatchMeta2
      else if meta1.tx_id > meta2.tx_id then .ok meta1 else .ok meta2
    | true, false =>
      if meta1.pagesize ≠ pagesize then .error .pagesizeMismatchMeta1
      else .ok meta1
    | false, true =>
      if meta2.pagesize ≠ pagesize then .error .pagesizeMismatchMeta2
      else .ok meta2
    | false, false => .error .noValidMetaPages

/-- A meta with every field zero except those given; used to build concrete
witnesses. -/
def mkMeta (mp ps tid : Nat) (h : List Nat) : Meta :=
  { meta_page := mp, magic := MAGIC_VALUE, version := VERSION, pagesize := ps,
    root := { root_page := 3, next_int := 0 }, num_pages := 4,
    freelist_page := 2, tx_id := tid, hash := h }

/-- A concrete valid meta: its hash field holds the recomputed digest. -/
def validMeta (mp ps tid : Nat) : Meta :=
  let m := mkMeta mp ps tid []
  { m with hash := m.hash_self }

/-- A concrete invalid meta: the empty hash never matches the digest. -/
def invalidMeta (mp ps tid : Nat) : Meta := mkMeta mp ps tid []

/-- Modelled from the spec: the numeric values of the page-type tags are not
in src/ (the constant section of page.rs is missing); the spec only
distinguishes meta / freelist / branch / leaf pages, so the tags are
modelled as distinct constants. -/
def Page.TYPE_META : Nat := 0

/-- Modelled from the spec: freelist page-type tag (value not in src/). -/
def Page.TYPE_FREELIST : Nat := 1

/-- Modelled from the spec: branch page-type tag (value not in src/). -/
def Page.TYPE_BRANCH : Nat := 2

/-- Modelled from the spec: leaf page-type tag (value not in src/). -/
def Page.TYPE_LEAF : Nat := 3

/-- The trailing data region of a page, viewed through the type its writer
gave it.  `zeroData` is a freshly zeroed region. -/
inductive PageData where
  | metaData (m : Meta)
  | freelistData (ids : List Nat)
  | leafData
  | branchData
  | zeroData
deriving DecidableEq, Repr

/-- Reinterpreting a trailing region as a `Meta`.  In the source this is a
raw pointer cast that is total (any bytes yield some `Meta` value); content
written through another type is modelled as yielding a fixed default. -/
def PageData.asMeta : PageData → Meta
  | .metaData m => m
  | _ => mkMeta 0 0 0 []

/-- `Page` from page.rs: header fields plus the trailing data region that
`ptr` points at. -/
structure Page where
  id : Nat
  page_type : Nat
  count : Nat
  overflow : Nat
  data : PageData
deriving DecidableEq, Repr

/-- Failure outcome of the `assert_eq!(self.page_type, Page::TYPE_META)`
guard in `Page::meta`. -/
inductive PageError where
  | assertTypeMeta
deriving DecidableEq, Repr

/-- `Page::meta` from page.rs lines 32-35: asserts the page type is
`TYPE_META` before reinterpreting the trailing region as a `Meta`; the
assertion failure is modelled as an error outcome. -/
def Page.meta (p : Page) : Except PageError Meta :=
  if p.page_type = Page.TYPE_META then .ok p.data.asMeta
  else .error .assertTypeMeta

/-- The meta record placed in slot `i` by `init_file` (db.rs lines
247-289).  The buffer is zero-initialised and `tx_id` is never assigned, so
it remains 0; `hash` is computed last, over all the other fields. -/
def initMeta (pagesize i : Nat) : Meta :=
  let m : Meta :=
    { meta_page := i, magic := MAGIC_VALUE, version := VERSION,
      pagesize := pagesize,
      root := { root_page := 3, next_int := 0 },
      num_pages := 4, freelist_page := 2,
      tx_id := 0, hash := [] }
  { m with hash := m.hash_self }

/-- Observable effect of `init_file` on the new file: how many bytes
`file.allocate` reserves, how many bytes the buffer written by
`write_all` covers, and the pages that buffer contains. -/
structure InitFile where
  allocatedBytes : Nat
  writtenBytes : Nat
  writtenPages : List Page
deriving DecidableEq, Repr

/-- `init_file` from db.rs lines 247-289: allocates `pagesize * num_pages`
bytes, builds a 4-page buffer (two meta pages, an empty freelist page at
id 2, an empty leaf page at id 3) and writes it out. -/
def init_file (pagesize num_pages : Nat) : InitFile :=
  { allocatedBytes := pagesize * num_pages
  , writtenBytes := pagesize * 4
  , writtenPages :=
      [ { id := 0, page_type := Page.TYPE_META, count := 0, overflow := 0,
          data := .metaData (initMeta pagesize 0) }
      , { id := 1, page_type := Page.TYPE_META, count := 0, overflow := 0,
          data := .metaData (initMeta pagesize 1) }
      , { id := 2, page_type := Page.TYPE_FREELIST, count := 0, overflow := 0,
          data := .freelistData [] }
      , { id := 3, page_type := Page.TYPE_LEAF, count := 0, overflow := 0,
          data := .leafData } ] }

/-- `DBFlags` from db.rs. -/
structure DBFlags where
  strict_mode : Bool
  mmap_populate : Bool
  direct_writes : Bool
deriving DecidableEq, Repr

/-- `OpenOptions` from db.rs. -/
structure OpenOptions where
  pagesize : Nat
  num_pages : Nat
  flags : DBFlags
deriving DecidableEq, Repr

/-- The `OpenOptions::pagesize` builder method from db.rs lines 63-69: it
panics (modelled as `none`) below the 1024-byte floor, otherwise stores the
value unchanged.  It is a pure builder step; file I/O happens only later in
`open`. -/
def OpenOptions.setPagesize (o : OpenOptions) (ps : Nat) : Option OpenOptions :=
  if ps < 1024 then none else some { o with pagesize := ps }

/-- The `OpenOptions::num_pages` builder method from db.rs lines 71-77:
panics (modelled as `none`) below 4 pages, otherwise stores the value
unchanged, before any file I/O. -/
def OpenOptions.setNumPages (o : OpenOptions) (n : Nat) : Option OpenOptions :=
  if n < 4 then none else some { o with num_pages := n }

/-- `Freelist` from freelist.rs: the immediately reusable free set and the
per-transaction pending map (ordered association list standing in for the
BTreeSet / BTreeMap). -/
structure Freelist where
  free_pages : List Nat
  pending_pages : List (Nat × List Nat)
deriving DecidableEq, Repr

/-- Appending freed ids under a transaction key in the pending map,
merging into an existing entry for that key. -/
def insertPending : List (Nat × List Nat) → Nat → List Nat → List (Nat × List Nat)
  | [], tid, ids => [(tid, ids)]
  | e :: rest, tid, ids =>
    if e.1 = tid then (e.1, e.2 ++ ids) :: rest
    else e :: insertPending rest tid ids

/-- Modelled from the spec: `Freelist::free` is not in src/ (only the
struct is); spec section 4.3: record pages vacated by a write transaction
under that transaction's id rather than placing them directly in the
reusable set. -/
def Freelist.free (f : Freelist) (tid : Nat) (ids : List Nat) : Freelist :=
  { f with pending_pages := insertPending f.pending_pages tid ids }

/-- Modelled from the spec: `Freelist::release_pending` is not in src/;
spec section 4.3: move every pending entry whose owning transaction id is
strictly older than the oldest snapshot any open reader still depends on
into the reusable free set. -/
def Freelist.release_pending (f : Freelist) (minId : Nat) : Freelist :=
  { free_pages := f.free_pages ++
      ((f.pending_pages.filter fun e => decide (e.1 < minId)).map Prod.snd).flatten
  , pending_pages := f.pending_pages.filter fun e => decide (¬ e.1 < minId) }

/-- All page ids recorded anywhere in the pending map. -/
def Freelist.pendingIDs (f : Freelist) : List Nat :=
  (f.pending_pages.map Prod.snd).flatten

/-- Modelled from the spec: the transaction engine's shared state (the tx
module is not in src/): the two meta slots, the configured pagesize, and
the open-readers registry `open_ro_txs` (db.rs holds it on `DBInner`). -/
structure DBState where
  pagesize : Nat
  slot0 : Meta
  slot1 : Meta
  open_ro_txs : List Nat
deriving DecidableEq, Repr

/-- The authoritative meta of a state, as `DBInner::meta` selects it. -/
def DBState.current (s : DBState) : Except DbError Meta :=
  dbMeta s.pagesize s.slot0 s.slot1

/-- Modelled from the spec: a read transaction's entire handle is the meta
snapshot it took at start; it dereferences pages only through that
snapshot's root. -/
structure ReadTx where
  snapshot : Meta
deriving DecidableEq, Repr

/-- Modelled from the spec: starting a read transaction snapshots the
current authoritative meta and registers its transaction id in the
open-readers set. -/
def beginRead (s : DBState) : Except DbError (DBState × ReadTx) :=
  match s.current with
  | .ok m =>
    .ok ({ s with open_ro_txs := m.tx_id :: s.open_ro_txs }, { snapshot := m })
  | .error e => .error e

/-- Modelled from the spec: a committing write transaction publishes its
new meta into the non-authoritative slot (the slot other than the one the
currently selected meta occupies). -/
def commitWrite (s : DBState) (newMeta : Meta) : DBState :=
  match s.current with
  | .ok m =>
    if m.meta_page = 0 then { s with slot1 := newMeta }
    else { s with slot0 := newMeta }
  | .error _ => s

/-- Modelled from the spec: what a read transaction observes in a given
database state — it only dereferences pages reachable from its snapshot's
root, never the state's current slots. -/
def ReadTx.view (t : ReadTx) (_s : DBState) : Meta := t.snapshot

/-- `Freelist::new` from db.rs usage: a freelist with nothing free and
nothing pending. -/
def Freelist.new : Freelist := { free_pages := [], pending_pages := [] }

/-- A placeholder page used as the default of list indexing in statements. -/
def dummyPage : Page :=
  { id := 0, page_type := 0, count := 0, overflow := 0, data := .zeroData }

theorem getD_set_self (l : List Nat) (i b : Nat) (h : i < l.length) :
    (l.set i b).getD i 0 = b := by
  induction l generalizing i with
  | nil => simp at h
  | cons a t ih =>
    cases i with
    | zero => simp
    | succ j => simpa using ih j (by simpa using h)

theorem mem_insertPending_self (p : List (Nat × List Nat)) (tid : Nat)
    (ids : List Nat) (x : Nat) (hx : x ∈ ids) :
    ∃ v, (tid, v) ∈ insertPending p tid ids ∧ x ∈ v := by
  induction p with
  | nil => exact ⟨ids, by simp [insertPending], hx⟩
  | cons e rest ih =>
    by_cases h : e.1 = tid
    · refine ⟨e.2 ++ ids, ?_, by simp [hx]⟩
      simp [insertPending, if_pos h, h]
    · obtain ⟨v, hv, hxv⟩ := ih
      exact ⟨v, by simp [insertPending, if_neg h, hv], hxv⟩

theorem mem_insertPending_ne (p : List (Nat × List Nat)) (tid : Nat)
    (ids : List Nat) (e : Nat × List Nat) (h : e ∈ insertPending p tid ids)
    (hne : e.1 ≠ tid) : e ∈ p := by
  induction p with
  | nil =>
    simp [insertPending] at h
    rw [h] at hne
    simp at hne
  | cons a rest ih =>
    by_cases ha : a.1 = tid
    · rw [insertPending, if_pos ha] at h
      rcases List.mem_cons.mp h with h | h
      · exfalso; apply hne; rw [h, ha]
      · exact List.mem_cons_of_mem _ h
    · rw [insertPending, if_neg ha] at h
      rcases List.mem_cons.mp h with h | h
      · simp [h]
      · exact List.mem_cons_of_mem _ (ih h)

/-- C1: for metas whose recorded pagesize matches the configured one,
`DBInner::meta` picks the valid slot with the strictly higher transaction
id when both validate, the sole valid slot when only one does, and fails
when neither does. -/
theorem dbMeta_selects_authoritative (ps : Nat) (m1 m2 : Meta)
    (h1 : m1.pagesize = ps) (h2 : m2.pagesize = ps) :
    (m1.valid = true → m2.valid = true → m1.tx_id > m2.tx_id →
      dbMeta ps m1 m2 = .ok m1)
  ∧ (m1.valid = true → m2.valid = true → m2.tx_id > m1.tx_id →
      dbMeta ps m1 m2 = .ok m2)
  ∧ (m1.valid = true → m2.valid = false → dbMeta ps m1 m2 = .ok m1)
  ∧ (m1.valid = false → m2.valid = true → dbMeta ps m1 m2 = .ok m2)
  ∧ (m1.valid = false → m2.valid = false →
      dbMeta ps m1 m2 = .error .noValidMetaPages) := by
  refine ⟨?_, ?_, ?_, ?_, ?_⟩
  · intro hv1 hv2 hlt
    simp [dbMeta, hv1, hv2, h1, h2, hlt]
  · intro hv1 hv2 hlt
    simp [dbMeta, hv1, hv2, h1, h2, Nat.lt_asymm hlt]
  · intro hv1 hv2
    simp [dbMeta, hv1, hv2, h1]
  · intro hv1 hv2
    simp [dbMeta, hv1, hv2, h2]
  · intro hv1 hv2
    simp [dbMeta, hv1, hv2]

/-- C1 witness: both slots valid with matching pagesize, slot 0 at
transaction id 2 beats slot 1 at id 1. -/
theorem dbMeta_selects_authoritative_witness :
    dbMeta 4096 (validMeta 0 4096 2) (validMeta 1 4096 1) =
      .ok (validMeta 0 4096 2) :=
  (dbMeta_selects_authoritative 4096 (validMeta 0 4096 2) (validMeta 1 4096 1)
    rfl rfl).1 (by decide) (by decide) (by decide)

/-- C9: when both slots validate with equal transaction ids, the tie goes
to slot 1 (the comparison `tx_id >` is strict), and the selection still
returns a result rather than failing. -/
theorem dbMeta_tie_returns_slot1 (ps : Nat) (m1 m2 : Meta)
    (hv1 : m1.valid = true) (hv2 : m2.valid = true)
    (h1 : m1.pagesize = ps) (h2 : m2.pagesize = ps)
    (he : m1.tx_id = m2.tx_id) :
    dbMeta ps m1 m2 = .ok m2 := by
  simp [dbMeta, hv1, hv2, h1, h2, he]

/-- C9 witness: equal transaction ids on both valid slots yield slot 1. -/
theorem dbMeta_tie_returns_slot1_witness :
    dbMeta 4096 (validMeta 0 4096 7) (validMeta 1 4096 7) =
      .ok (validMeta 1 4096 7) :=
  dbMeta_tie_returns_slot1 4096 (validMeta 0 4096 7) (validMeta 1 4096 7)
    (by decide) (by decide) rfl rfl (by decide)

/-- C6: any checksum-valid slot whose recorded pagesize differs from the
configured one makes `DBInner::meta` fail, and a pagesize-mismatch failure
for a slot can only arise when that slot passed checksum validation. -/
theorem dbMeta_pagesize_guard (ps : Nat) (m1 m2 : Meta) :
    (m1.valid = true → m1.pagesize ≠ ps →
      dbMeta ps m1 m2 = .error .pagesizeMismatchMeta1)
  ∧ (m2.valid = true → m2.pagesize ≠ ps → ∃ e, dbMeta ps m1 m2 = .error e)
  ∧ (dbMeta ps m1 m2 = .error .pagesizeMismatchMeta1 → m1.valid = true)
  ∧ (dbMeta ps m1 m2 = .error .pagesizeMismatchMeta2 → m2.valid = true) := by
  refine ⟨?_, ?_, ?_, ?_⟩
  · intro hv1 hp1
    simp [dbMeta, hv1, hp1]
  · intro hv2 hp2
    by_cases hv1 : m1.valid
    · by_cases hp1 : m1.pagesize = ps
      · exact ⟨.pagesizeMismatchMeta2, by simp [dbMeta, hv1, hv2, hp1, hp2]⟩
      · exact ⟨.pagesizeMismatchMeta1, by simp [dbMeta, hv1, hp1]⟩
    · exact ⟨.pagesizeMismatchMeta2, by
        simp at hv1
        simp [dbMeta, hv1, hv2, hp2]⟩
  · intro h
    by_cases hv1 : m1.valid
    · exact hv1
    · exfalso
      simp at hv1
      by_cases hv2 : m2.valid
      · by_cases hp2 : m2.pagesize = ps <;>
          simp [dbMeta, hv1, hv2, hp2] at h
      · simp at hv2
        simp [dbMeta, hv1, hv2] at h
  · intro h
    by_cases hv2 : m2.valid
    · exact hv2
    · exfalso
      simp at hv2
      by_cases hv1 : m1.valid
      · by_cases hp1 : m1.pagesize = ps
        · by_cases ht : m1.tx_id > m2.tx_id <;>
            simp [dbMeta, hv1, hv2, hp1, ht] at h
        · simp [dbMeta, hv1, hp1] at h
      · simp at hv1
        simp [dbMeta, hv1, hv2] at h

/-- C6 witness: a valid slot 0 recorded at pagesize 2048 against a
configured pagesize of 4096 makes the read fail. -/
theorem dbMeta_pagesize_guard_witness :
    dbMeta 4096 (validMeta 0 2048 0) (validMeta 1 4096 1) =
      .error .pagesizeMismatchMeta1 :=
  (dbMeta_pagesize_guard 4096 (validMeta 0 2048 0) (validMeta 1 4096 1)).1
    (by decide) (by decide)

/-- C2: a meta is valid exactly when its stored hash equals the hash
recomputed over all other fields, and flipping any single byte of the
encoded non-hash fields of a valid meta (keeping its stored hash) makes
`valid` false. -/
theorem meta_valid_iff_hash_and_corruption_detected
    (m mc : Meta) (i b : Nat)
    (hv : m.valid = true) (hh : mc.hash = m.hash)
    (hi : i < (metaBytes m).length)
    (hb : b ≠ (metaBytes m).getD i 0)
    (hm : metaBytes mc = (metaBytes m).set i b) :
    (∀ x : Meta, x.valid = true ↔ x.hash = x.hash_self) ∧ mc.valid = false := by
  constructor
  · intro x
    simp [Meta.valid]
  · have h1 : m.hash = metaBytes m := by
      simpa [Meta.valid, Meta.hash_self] using hv
    have h2 : mc.valid = (metaBytes m == (metaBytes m).set i b) := by
      rw [Meta.valid, Meta.hash_self, hh, hm, h1]
    rw [h2]
    simp only [beq_eq_false_iff_ne, ne_eq]
    intro heq
    apply hb
    have := getD_set_self (metaBytes m) i b hi
    rw [← heq] at this
    exact this.symm

/-- C2 witness: flipping the low byte of the slot-index field of a
concrete committed meta (byte 0 of the encoding set to 1) falsifies
`valid`. -/
theorem meta_corruption_detected_witness :
    Meta.valid { validMeta 0 4096 0 with meta_page := 1 } = false :=
  (meta_valid_iff_hash_and_corruption_detected (validMeta 0 4096 0)
    { validMeta 0 4096 0 with meta_page := 1 } 0 1
    (by decide) (by decide) (by decide) (by decide) (by decide)).2

/-- C7: the configuration builder rejects a pagesize below 1024 and an
initial page count below 4 at configuration time (modelled as `none`, the
source panic), and stores any value meeting the minimum unchanged; the
setters are pure and perform no file I/O. -/
theorem openOptions_setter_guards (o : OpenOptions) (ps n : Nat) :
    (ps < 1024 → o.setPagesize ps = none)
  ∧ (1024 ≤ ps → o.setPagesize ps = some { o with pagesize := ps })
  ∧ (n < 4 → o.setNumPages n = none)
  ∧ (4 ≤ n → o.setNumPages n = some { o with num_pages := n }) := by
  refine ⟨?_, ?_, ?_, ?_⟩ <;> intro h
  · simp [OpenOptions.setPagesize, h]
  · simp [OpenOptions.setPagesize, Nat.not_lt.mpr h]
  · simp [OpenOptions.setNumPages, h]
  · simp [OpenOptions.setNumPages, Nat.not_lt.mpr h]

/-- C7 witness: pagesize 512 is rejected while an initial page count of 8
is accepted and stored, on a concrete option record. -/
theorem openOptions_setter_guards_witness :
    OpenOptions.setPagesize
      { pagesize := 4096, num_pages := 32, flags := ⟨false, false, false⟩ } 512
      = none
  ∧ OpenOptions.setNumPages
      { pagesize := 4096, num_pages := 32, flags := ⟨false, false, false⟩ } 8
      = some { pagesize := 4096, num_pages := 8, flags := ⟨false, false, false⟩ } :=
  ⟨(openOptions_setter_guards
      { pagesize := 4096, num_pages := 32, flags := ⟨false, false, false⟩ }
      512 8).1 (by decide),
   (openOptions_setter_guards
      { pagesize := 4096, num_pages := 32, flags := ⟨false, false, false⟩ }
      512 8).2.2.2 (by decide)⟩

/-- C8: `Page::meta` reinterprets the trailing region only behind the
page-type assertion: on a page tagged `TYPE_META` the assertion branch is
unreachable and the reinterpreted record is returned, and on any other
page type the call fails instead of reinterpreting. -/
theorem page_meta_asserts_type (p : Page) :
    (p.page_type = Page.TYPE_META → Page.meta p = .ok p.data.asMeta)
  ∧ (p.page_type ≠ Page.TYPE_META → Page.meta p = .error .assertTypeMeta) := by
  constructor <;> intro h <;> simp [Page.meta, h]

/-- C8 witness: a meta-typed page yields its record, and a leaf-typed page
fails the assertion. -/
theorem page_meta_asserts_type_witness :
    Page.meta { id := 0, page_type := Page.TYPE_META, count := 0,
                overflow := 0, data := .metaData (validMeta 0 4096 0) }
      = .ok (validMeta 0 4096 0)
  ∧ Page.meta { id := 3, page_type := Page.TYPE_LEAF, count := 0,
                overflow := 0, data := .leafData }
      = .error .assertTypeMeta :=
  ⟨(page_meta_asserts_type _).1 rfl, (page_meta_asserts_type _).2 (by decide)⟩

/-- C5 counterexample: the two meta slots written by `init_file` are not
identical — their `meta_page` fields are 0 and 1 respectively (and hence
their hashes differ), exhibited at pagesize 4096 with 32 initial pages. -/
theorem init_file_meta_slots_not_identical :
    ((init_file 4096 32).writtenPages.getD 0 dummyPage).data ≠
    ((init_file 4096 32).writtenPages.getD 1 dummyPage).data := by decide

/-- C5 (amended): `init_file` writes two meta pages (ids 0 and 1) whose
records both carry transaction id 0, the magic constant, the version, the
configured pagesize, freelist page id 2, root page id 3 and a valid hash,
agreeing on every field except the slot index `meta_page` (0 resp. 1) and
consequently the hash; page 2 is an empty freelist page and page 3 an
empty leaf page. -/
theorem init_file_layout (ps n : Nat) :
    ((init_file ps n).writtenPages.getD 0 dummyPage).id = 0
  ∧ ((init_file ps n).writtenPages.getD 1 dummyPage).id = 1
  ∧ ((init_file ps n).writtenPages.getD 0 dummyPage).page_type = Page.TYPE_META
  ∧ ((init_file ps n).writtenPages.getD 1 dummyPage).page_type = Page.TYPE_META
  ∧ Page.meta ((init_file ps n).writtenPages.getD 0 dummyPage) =
      .ok (initMeta ps 0)
  ∧ Page.meta ((init_file ps n).writtenPages.getD 1 dummyPage) =
      .ok (initMeta ps 1)
  ∧ (initMeta ps 0).tx_id = 0
  ∧ (initMeta ps 1).tx_id = 0
  ∧ (initMeta ps 0).magic = MAGIC_VALUE
  ∧ (initMeta ps 1).magic = MAGIC_VALUE
  ∧ (initMeta ps 0).version = VERSION
  ∧ (initMeta ps 1).version = VERSION
  ∧ (initMeta ps 0).pagesize = ps
  ∧ (initMeta ps 1).pagesize = ps
  ∧ (initMeta ps 0).freelist_page = 2
  ∧ (initMeta ps 1).freelist_page = 2
  ∧ (initMeta ps 0).root = { root_page := 3, next_int := 0 }
  ∧ (initMeta ps 1).root = { root_page := 3, next_int := 0 }
  ∧ (initMeta ps 0).valid = true
  ∧ (initMeta ps 1).valid = true
  ∧ initMeta ps 1 =
      { initMeta ps 0 with meta_page := 1, hash := (initMeta ps 1).hash_self }
  ∧ (init_file ps n).writtenPages.getD 2 dummyPage =
      { id := 2, page_type := Page.TYPE_FREELIST, count := 0, overflow := 0,
        data := .freelistData [] }
  ∧ (init_file ps n).writtenPages.getD 3 dummyPage =
      { id := 3, page_type := Page.TYPE_LEAF, count := 0, overflow := 0,
        data := .leafData } := by
  refine ⟨rfl, rfl, rfl, rfl, rfl, rfl, rfl, rfl, rfl, rfl, rfl, rfl, rfl,
          rfl, rfl, rfl, rfl, rfl, ?_, ?_, ?_, rfl, rfl⟩
  · simp [Meta.valid, initMeta, Meta.hash_self, metaBytes]
  · simp [Meta.valid, initMeta, Meta.hash_self, metaBytes]
  · simp [initMeta, Meta.hash_self, metaBytes]

/-- C10: `init_file` allocates file space for all `n` configured pages but
writes only a 4-page buffer, and both initial metas record a total page
count of 4, independent of `n`. -/
theorem init_file_allocates_n_initialises_four (ps n : Nat) :
    (init_file ps n).allocatedBytes = ps * n
  ∧ (init_file ps n).writtenBytes = ps * 4
  ∧ (init_file ps n).writtenPages.length = 4
  ∧ ((init_file ps n).writtenPages.getD 0 dummyPage).data =
      .metaData (initMeta ps 0)
  ∧ ((init_file ps n).writtenPages.getD 1 dummyPage).data =
      .metaData (initMeta ps 1)
  ∧ (initMeta ps 0).num_pages = 4
  ∧ (initMeta ps 1).num_pages = 4 :=
  ⟨rfl, rfl, rfl, rfl, rfl, rfl, rfl⟩

/-- C4: a page freed under transaction id `T` stays in the pending map and
out of the reusable free set as long as the minimum active reader snapshot
`m` satisfies `m < T`; once `T < m` it is released; and `release_pending m`
moves exactly the pending entries whose owning transaction id is strictly
older than `m` into the free set, keeping the rest pending. -/
theorem freelist_defers_reuse (f : Freelist) (T m pid : Nat)
    (h1 : pid ∉ f.free_pages) (h2 : pid ∉ f.pendingIDs) :
    (m < T →
      pid ∉ ((f.free T [pid]).release_pending m).free_pages
      ∧ pid ∈ ((f.free T [pid]).release_pending m).pendingIDs)
  ∧ (T < m → pid ∈ ((f.free T [pid]).release_pending m).free_pages)
  ∧ (∀ q, q ∈ (f.release_pending m).free_pages ↔
      (q ∈ f.free_pages ∨ ∃ e, e ∈ f.pending_pages ∧ e.1 < m ∧ q ∈ e.2))
  ∧ (∀ e, e ∈ (f.release_pending m).pending_pages ↔
      (e ∈ f.pending_pages ∧ ¬ e.1 < m)) := by
  obtain ⟨v, hv, hpv⟩ :=
    mem_insertPending_self f.pending_pages T [pid] pid (by simp)
  refine ⟨?_, ?_, ?_, ?_⟩
  · intro hm
    constructor
    · intro hmem
      rcases List.mem_append.mp hmem with hmem | hmem
      · exact h1 hmem
      · rcases List.mem_flatten.mp hmem with ⟨s, hs, hpid⟩
        rcases List.mem_map.mp hs with ⟨e, he, rfl⟩
        rcases List.mem_filter.mp he with ⟨he', hcond⟩
        have hlt : e.1 < m := of_decide_eq_true hcond
        have hneT : e.1 ≠ T := by omega
        have hep : e ∈ f.pending_pages :=
          mem_insertPending_ne _ _ _ _ he' hneT
        exact h2 (List.mem_flatten.mpr
          ⟨e.2, List.mem_map.mpr ⟨e, hep, rfl⟩, hpid⟩)
    · refine List.mem_flatten.mpr ⟨v, List.mem_map.mpr ⟨(T, v), ?_, rfl⟩, hpv⟩
      exact List.mem_filter.mpr ⟨hv, decide_eq_true (by omega)⟩
  · intro hm
    refine List.mem_append.mpr (Or.inr ?_)
    refine List.mem_flatten.mpr ⟨v, List.mem_map.mpr ⟨(T, v), ?_, rfl⟩, hpv⟩
    exact List.mem_filter.mpr ⟨hv, decide_eq_true (by omega)⟩
  · intro q
    simp only [Freelist.release_pending, List.mem_append, List.mem_flatten,
      List.mem_map, List.mem_filter, decide_eq_true_eq]
    constructor
    · rintro (hq | ⟨s, ⟨e, ⟨he, hlt⟩, rfl⟩, hq⟩)
      · exact Or.inl hq
      · exact Or.inr ⟨e, he, hlt, hq⟩
    · rintro (hq | ⟨e, he, hlt, hq⟩)
      · exact Or.inl hq
      · exact Or.inr ⟨e.2, ⟨e, ⟨he, hlt⟩, rfl⟩, hq⟩
  · intro e
    simp only [Freelist.release_pending, List.mem_filter, decide_eq_true_eq]

/-- C4 witness: page 7 freed under transaction 5 stays pending against a
minimum reader snapshot of 3, and is released once the minimum snapshot
reaches 6. -/
theorem freelist_defers_reuse_witness :
    (7 ∉ ((Freelist.new.free 5 [7]).release_pending 3).free_pages
      ∧ 7 ∈ ((Freelist.new.free 5 [7]).release_pending 3).pendingIDs)
  ∧ 7 ∈ ((Freelist.new.free 5 [7]).release_pending 6).free_pages :=
  ⟨(freelist_defers_reuse Freelist.new 5 3 7 (by decide) (by decide)).1
      (by decide),
   (freelist_defers_reuse Freelist.new 5 6 7 (by decide) (by decide)).2.1
      (by decide)⟩

/-- C3: a read transaction's snapshot is the authoritative meta at its
start, its id is registered in the open-readers set, and its view after
any sequence of later commits by write transactions is still exactly that
snapshot. -/
theorem read_tx_snapshot_isolation (s s1 : DBState) (t : ReadTx)
    (ms : List Meta) (h : beginRead s = .ok (s1, t)) :
    s.current = .ok t.snapshot
  ∧ s1.open_ro_txs = t.snapshot.tx_id :: s.open_ro_txs
  ∧ ReadTx.view t (ms.foldl commitWrite s1) = t.snapshot := by
  cases hc : s.current with
  | error e =>
    rw [beginRead, hc] at h
    exact absurd h (by simp)
  | ok mm =>
    rw [beginRead, hc] at h
    simp only [Except.ok.injEq, Prod.mk.injEq] at h
    obtain ⟨hs1, ht⟩ := h
    subst hs1
    subst ht
    exact ⟨rfl, rfl, rfl⟩

/-- C3 witness: on a concrete state whose authoritative meta is slot 1 at
transaction id 1, a read transaction snapshots that meta; the witness
instantiates the theorem after a further commit at transaction id 2. -/
theorem read_tx_snapshot_isolation_witness :
    DBState.current
      { pagesize := 4096, slot0 := validMeta 0 4096 0,
        slot1 := validMeta 1 4096 1, open_ro_txs := [] } =
      .ok (validMeta 1 4096 1) :=
  (read_tx_snapshot_isolation
    { pagesize := 4096, slot0 := validMeta 0 4096 0,
      slot1 := validMeta 1 4096 1, open_ro_txs := [] }
    { pagesize := 4096, slot0 := validMeta 0 4096 0,
      slot1 := validMeta 1 4096 1, open_ro_txs := [1] }
    { snapshot := validMeta 1 4096 1 }
    [validMeta 0 4096 2] rfl).1

end BPlus
